import Mathlib

/-!
Verification of the DynamoDB item-count publisher
(`src/infra/terraform/lambdas/dynamodb_itemcount_publisher.py`).

The module reads a comma-delimited `TABLES` environment value and a
`NAMESPACE` value, counts the items of each configured DynamoDB table with a
paginated count-only scan (falling back to a single non-paginated scan when
pagination raises), accumulates one CloudWatch metric datum per successfully
counted table, publishes the accumulated data in batches of 20, and returns a
status dictionary.

The embedding below models the two remote services by explicit behaviour
oracles: per table, the pages the paginator delivers, whether pagination
raises, and the outcome of the fallback scan; per publish call, whether the
sink accepts the batch.  Every function also returns the trace of remote
calls it makes, so claims about "zero remote calls" are statements about the
computed trace.
-/

namespace ExamApp

/-- Opaque cause of a remote-call failure (a raised exception). -/
abbrev Err := Nat

/-- Behaviour of the remote store for one table:
`pages` are the pages the paginator delivers (each page optionally carrying a
`Count` field) before either finishing or raising; `paginateFails` says
whether the paginated scan raises (after delivering `pages`); `fallback` is
the outcome of the single non-paginated scan, either an exception or a
response optionally carrying a `Count` field. -/
structure ScanBehavior where
  pages : List (Option Nat)
  paginateFails : Bool
  fallback : Except Err (Option Nat)

/-- One call made to the remote key-value store. -/
inductive StoreCall where
  | paginatedScan (table : String)
  | singleScan (table : String)
deriving Repr, DecidableEq

/-- A CloudWatch dimension `{'Name': _, 'Value': _}`. -/
structure Dimension where
  name : String
  value : String
deriving Repr, DecidableEq

/-- One metric datum as built in `publish_counts`. -/
structure MetricPoint where
  metricName : String
  dimensions : List Dimension
  value : Nat
  unit : String
deriving Repr, DecidableEq

/-- One `put_metric_data` call made to the metrics sink, with the namespace
and batch submitted and whether the sink accepted it. -/
structure PutCall where
  ns : String
  data : List MetricPoint
  ok : Bool
deriving Repr, DecidableEq

/-- Process configuration: the raw values of the `TABLES` and `NAMESPACE`
environment variables (`none` = unset). -/
structure Config where
  tablesEnv : Option String
  namespaceEnv : Option String

/-- Behaviour of the two remote services during one run: the store's
behaviour per table name, and whether the i-th `put_metric_data` call of the
run succeeds. -/
structure Behavior where
  scan : String → ScanBehavior
  putOk : Nat → Bool

/-- Split a character list at every comma, as Python's `str.split(",")`
does: the result always has one more part than there are commas, so the
empty string splits to `[""]` and `","` splits to `["", ""]`. -/
def splitCommaChars : List Char → List (List Char)
  | [] => [[]]
  | c :: rest =>
    let r := splitCommaChars rest
    if c = ',' then [] :: r
    else (c :: r.headD []) :: r.tail

/-- Python's `str.split(",")`. -/
def splitCommas (s : String) : List String :=
  (splitCommaChars s.toList).map (fun cs => { data := cs })

/-- Drop leading whitespace characters. -/
def dropLeadingSpace : List Char → List Char
  | [] => []
  | c :: rest => if c.isWhitespace then dropLeadingSpace rest else c :: rest

/-- Python's `str.strip()`: remove leading and trailing whitespace. -/
def strip (s : String) : String :=
  { data := dropLeadingSpace ((dropLeadingSpace s.toList.reverse).reverse) }

/-- `TABLES = os.environ.get("TABLES", "").split(",")`. -/
def TABLES (cfg : Config) : List String :=
  splitCommas (cfg.tablesEnv.getD "")

/-- `NAMESPACE = os.environ.get("NAMESPACE", "examapp/DynamoDB")`. -/
def NAMESPACE (cfg : Config) : String :=
  cfg.namespaceEnv.getD "examapp/DynamoDB"

/-- `scan_count(table_name)`: sums `int(page.get('Count', 0))` over the
delivered pages; if pagination raises, the partial total is overwritten by
the fallback's `int(resp.get('Count', 0))`; if the fallback also raises, the
exception propagates.  Returns the store calls made and the outcome. -/
def scan_count (b : ScanBehavior) (table_name : String) :
    List StoreCall × Except Err Nat :=
  let total := b.pages.foldl (fun acc page => acc + page.getD 0) 0
  if b.paginateFails then
    match b.fallback with
    | Except.ok resp => ([StoreCall.paginatedScan table_name, StoreCall.singleScan table_name],
        Except.ok (resp.getD 0))
    | Except.error e => ([StoreCall.paginatedScan table_name, StoreCall.singleScan table_name],
        Except.error e)
  else
    ([StoreCall.paginatedScan table_name], Except.ok total)

/-- `True` exactly when an `Except` value is a success. -/
def exceptOk : Except Err Nat → Bool
  | Except.ok _ => true
  | Except.error _ => false

/-- The metric datum appended for a successfully counted table. -/
def mkPoint (table : String) (count : Nat) : MetricPoint :=
  { metricName := "ItemCount"
  , dimensions := [{ name := "TableName", value := table }]
  , value := count
  , unit := "Count" }

/-- The collection loop of `publish_counts`: strip each entry, skip blanks,
call `scan_count`, append a metric datum on success, log and skip on
exception.  Returns the store calls made and the accumulated data. -/
def collect (scan : String → ScanBehavior) : List String → List StoreCall × List MetricPoint
  | [] => ([], [])
  | t :: rest =>
    let table := strip t
    if table = "" then collect scan rest
    else
      let r := scan_count (scan table) table
      let rs := collect scan rest
      match r.2 with
      | Except.ok count => (r.1 ++ rs.1, mkPoint table count :: rs.2)
      | Except.error _ => (r.1 ++ rs.1, rs.2)

/-- Structural worker for the batching loop; `fuel` only bounds the
recursion depth and is irrelevant as long as it is at least the list's
length. -/
def batchesAux : Nat → List MetricPoint → List (List MetricPoint)
  | _, [] => []
  | 0, _ :: _ => []
  | fuel + 1, p :: rest => ((p :: rest).take 20) :: batchesAux fuel (rest.drop 19)

/-- `metric_data[i:i+20]` for `i in range(0, len(metric_data), 20)`: the
consecutive batches of at most 20 data in order. -/
def batchesOf20 (l : List MetricPoint) : List (List MetricPoint) :=
  batchesAux l.length l

/-- The publish loop of `publish_counts`: submit each batch in order with the
run's namespace; the first failing call aborts the loop (its exception is
caught and `False` is returned).  `i` is the index of the next sink call.
Returns the sink calls made and the boolean result. -/
def publishBatches (putOk : Nat → Bool) (ns : String) :
    List (List MetricPoint) → Nat → List PutCall × Bool
  | [], _ => ([], true)
  | b :: rest, i =>
    if putOk i then
      let r := publishBatches putOk ns rest (i + 1)
      ({ ns := ns, data := b, ok := true } :: r.1, r.2)
    else
      ([{ ns := ns, data := b, ok := false }], false)

/-- All remote calls made during one run. -/
structure RunTrace where
  scanCalls : List StoreCall
  putCalls : List PutCall
deriving Repr, DecidableEq

/-- The returned dictionary `{"status": _}`. -/
structure RunResult where
  status : String
deriving Repr, DecidableEq

/-- `publish_counts()`: collect the data, then publish them in batches of 20;
returns the full trace and the boolean result. -/
def publish_counts (cfg : Config) (env : Behavior) : RunTrace × Bool :=
  let c := collect env.scan (TABLES cfg)
  let p := publishBatches env.putOk (NAMESPACE cfg) (batchesOf20 c.2) 0
  ({ scanCalls := c.1, putCalls := p.1 }, p.2)

/-- `lambda_handler(event, context)`: the guard
`if not TABLES or TABLES == [""]` returns `no-tables` with no remote call;
otherwise the run's status is `ok` or `error` according to
`publish_counts()`.  `event` and `context` are accepted and unused. -/
def lambda_handler {α β : Type} (cfg : Config) (env : Behavior)
    (event : α) (context : β) : RunTrace × RunResult :=
  if TABLES cfg = [] ∨ TABLES cfg = [""] then
    ({ scanCalls := [], putCalls := [] }, { status := "no-tables" })
  else
    let r := publish_counts cfg env
    (r.1, { status := if r.2 then "ok" else "error" })

/-- A benign environment: every paginated scan succeeds with a single page of
count 1, every fallback succeeds, the sink accepts every batch. -/
def benignEnv : Behavior :=
  { scan := fun _ => { pages := [some 1], paginateFails := false, fallback := Except.ok (some 1) }
  , putOk := fun _ => true }

/-- An environment in which every table's paginated and fallback scans both
fail and the sink rejects every batch. -/
def failingEnv : Behavior :=
  { scan := fun _ => { pages := [], paginateFails := true, fallback := Except.error 7 }
  , putOk := fun _ => false }

/-- An environment in which only table `x` fails both scans; every other
table counts successfully and the sink accepts every batch. -/
def mixedEnv : Behavior :=
  { scan := fun t =>
      if t = "x" then { pages := [], paginateFails := true, fallback := Except.error 7 }
      else { pages := [some 2], paginateFails := false, fallback := Except.ok (some 2) }
  , putOk := fun _ => true }

/-- An environment in which table `x`'s pagination delivers a page of count 9
and then raises, while its fallback scan succeeds with count 5; every other
table counts successfully and the sink accepts every batch. -/
def fallbackEnv : Behavior :=
  { scan := fun t =>
      if t = "x" then { pages := [some 9], paginateFails := true, fallback := Except.ok (some 5) }
      else { pages := [some 2], paginateFails := false, fallback := Except.ok (some 2) }
  , putOk := fun _ => true }

/-- A configuration naming 21 tables. -/
def cfg21 : Config :=
  { tablesEnv := some "a,b,c,d,e,f,g,h,i,j,k,l,m,n,o,p,q,r,s,t,u", namespaceEnv := none }

/-- An environment in which every count succeeds but the sink rejects the
very first batch of the run. -/
def badSinkEnv : Behavior :=
  { scan := fun _ => { pages := [some 1], paginateFails := false, fallback := Except.ok (some 1) }
  , putOk := fun _ => false }

/-- The number of non-blank configured tables whose count succeeded: this is
exactly the number of metric data accumulated by the collection loop. -/
def successfulCount (scan : String → ScanBehavior) (tables : List String) : Nat :=
  (tables.filter (fun t =>
    !(strip t == "") && exceptOk (scan_count (scan (strip t)) (strip t)).2)).length

/-! ### Helper lemmas about the collection loop -/

theorem collect_append (scan : String → ScanBehavior) (l1 l2 : List String) :
    collect scan (l1 ++ l2) =
      ((collect scan l1).1 ++ (collect scan l2).1,
       (collect scan l1).2 ++ (collect scan l2).2) := by
  induction l1 with
  | nil => simp [collect]
  | cons t rest ih =>
    by_cases h : strip t = ""
    · simpa [collect, h] using ih
    · cases hr : (scan_count (scan (strip t)) (strip t)).2 with
      | ok v => simp [collect, h, hr, ih]
      | error e => simp [collect, h, hr, ih]

theorem collect_allBlank (scan : String → ScanBehavior) (l : List String)
    (h : ∀ t ∈ l, strip t = "") : collect scan l = ([], []) := by
  induction l with
  | nil => rfl
  | cons t rest ih =>
    have ht := h t (List.mem_cons_self t rest)
    have ih2 := ih (fun u hu => h u (List.mem_cons_of_mem t hu))
    simp [collect, ht, ih2]

theorem collect_noPoints (scan : String → ScanBehavior) (l : List String)
    (h : ∀ t ∈ l, strip t = "" ∨ exceptOk (scan_count (scan (strip t)) (strip t)).2 = false) :
    (collect scan l).2 = [] := by
  induction l with
  | nil => rfl
  | cons t rest ih =>
    have ih2 := ih (fun u hu => h u (List.mem_cons_of_mem t hu))
    rcases h t (List.mem_cons_self t rest) with ht | ht
    · simp [collect, ht, ih2]
    · by_cases hb : strip t = ""
      · simp [collect, hb, ih2]
      · cases hr : (scan_count (scan (strip t)) (strip t)).2 with
        | ok v => rw [hr] at ht; simp [exceptOk] at ht
        | error e => simp [collect, hb, hr, ih2]

theorem collect_length_eq (scan : String → ScanBehavior) (l : List String) :
    (collect scan l).2.length = successfulCount scan l := by
  induction l with
  | nil => rfl
  | cons t rest ih =>
    by_cases hb : strip t = ""
    · simp [collect, successfulCount, List.filter_cons, hb] at ih ⊢
      exact ih
    · cases hr : (scan_count (scan (strip t)) (strip t)).2 with
      | ok v =>
        simp [collect, successfulCount, List.filter_cons, hb, hr, exceptOk] at ih ⊢
        exact ih
      | error e =>
        simp [collect, successfulCount, List.filter_cons, hb, hr, exceptOk] at ih ⊢
        exact ih

theorem foldl_count_eq_sum (l : List (Option Nat)) (n : Nat) :
    l.foldl (fun acc page => acc + page.getD 0) n
      = n + (l.map (fun p => p.getD 0)).sum := by
  induction l generalizing n with
  | nil => simp
  | cons p rest ih => simp [List.foldl_cons, ih, List.sum_cons]; omega

/-! ### Helper lemmas about the batching and publish loops -/

theorem batchesAux_congr : ∀ (f1 f2 : Nat) (l : List MetricPoint),
    l.length ≤ f1 → l.length ≤ f2 → batchesAux f1 l = batchesAux f2 l := by
  intro f1
  induction f1 with
  | zero =>
    intro f2 l h1 h2
    cases l with
    | nil => cases f2 <;> rfl
    | cons p rest => simp at h1
  | succ f ih =>
    intro f2 l h1 h2
    cases l with
    | nil => cases f2 <;> rfl
    | cons p rest =>
      cases f2 with
      | zero => simp at h2
      | succ f2 =>
        rw [batchesAux, batchesAux]
        congr 1
        apply ih
        · simp only [List.length_drop]
          simp only [List.length_cons] at h1
          omega
        · simp only [List.length_drop]
          simp only [List.length_cons] at h2
          omega

theorem batchesOf20_cons (p : MetricPoint) (rest : List MetricPoint) :
    batchesOf20 (p :: rest) =
      ((p :: rest).take 20) :: batchesOf20 (rest.drop 19) := by
  show batchesAux ((p :: rest).length) (p :: rest) = _
  rw [show (p :: rest).length = rest.length + 1 from rfl, batchesAux]
  congr 1
  exact batchesAux_congr rest.length (rest.drop 19).length (rest.drop 19)
    (by simp only [List.length_drop]; omega) (Nat.le_refl _)

theorem batchesOf20_flatten (l : List MetricPoint) : (batchesOf20 l).flatten = l := by
  have H : ∀ (n : Nat) (l : List MetricPoint), l.length ≤ n →
      (batchesOf20 l).flatten = l := by
    intro n
    induction n with
    | zero =>
      intro l hl
      cases l with
      | nil => rfl
      | cons p rest => simp at hl
    | succ n ih =>
      intro l hl
      cases l with
      | nil => rfl
      | cons p rest =>
        rw [batchesOf20_cons]
        have h20 : (p :: rest).take 20 = p :: rest.take 19 := rfl
        have hlen : (rest.drop 19).length ≤ n := by
          simp only [List.length_drop]
          simp only [List.length_cons] at hl
          omega
        simp only [List.flatten_cons, ih _ hlen, h20, List.cons_append,
          List.take_append_drop]
  exact H l.length l (Nat.le_refl _)

theorem batchesOf20_length (l : List MetricPoint) :
    (batchesOf20 l).length = (l.length + 19) / 20 := by
  have H : ∀ (n : Nat) (l : List MetricPoint), l.length ≤ n →
      (batchesOf20 l).length = (l.length + 19) / 20 := by
    intro n
    induction n with
    | zero =>
      intro l hl
      cases l with
      | nil => rfl
      | cons p rest => simp at hl
    | succ n ih =>
      intro l hl
      cases l with
      | nil => rfl
      | cons p rest =>
        rw [batchesOf20_cons]
        have hlen : (rest.drop 19).length ≤ n := by
          simp only [List.length_drop]
          simp only [List.length_cons] at hl
          omega
        simp only [List.length_cons, ih _ hlen, List.length_drop]
        omega
  exact H l.length l (Nat.le_refl _)

theorem batchesOf20_le20 (l : List MetricPoint) :
    ∀ b ∈ batchesOf20 l, b.length ≤ 20 := by
  have H : ∀ (n : Nat) (l : List MetricPoint), l.length ≤ n →
      ∀ b ∈ batchesOf20 l, b.length ≤ 20 := by
    intro n
    induction n with
    | zero =>
      intro l hl b hb
      cases l with
      | nil => simp [batchesOf20, batchesAux] at hb
      | cons p rest => simp at hl
    | succ n ih =>
      intro l hl b hb
      cases l with
      | nil => simp [batchesOf20, batchesAux] at hb
      | cons p rest =>
        rw [batchesOf20_cons] at hb
        have hlen : (rest.drop 19).length ≤ n := by
          simp only [List.length_drop]
          simp only [List.length_cons] at hl
          omega
        rcases List.mem_cons.mp hb with h | h
        · subst h; simp [List.length_take]
        · exact ih _ hlen b h
  exact H l.length l (Nat.le_refl _)

theorem publishBatches_allOk (putOk : Nat → Bool) (ns : String)
    (h : ∀ i, putOk i = true) :
    ∀ (bs : List (List MetricPoint)) (i : Nat),
      publishBatches putOk ns bs i =
        (bs.map (fun b => { ns := ns, data := b, ok := true }), true) := by
  intro bs
  induction bs with
  | nil => intro i; rfl
  | cons b rest ih => intro i; simp [publishBatches, h i, ih (i + 1)]

/-- Closed form of the publish loop: either every submission succeeds and
every batch is submitted, or there is a first failing call index `k`, the
first `k` batches are submitted successfully, the `k`-th is submitted and
rejected, and the loop stops there returning `false`. -/
theorem publishBatches_closed (putOk : Nat → Bool) (ns : String) :
    ∀ (bs : List (List MetricPoint)) (i : Nat),
      ((∀ j, j < bs.length → putOk (i + j) = true) ∧
        publishBatches putOk ns bs i =
          (bs.map (fun b => { ns := ns, data := b, ok := true }), true)) ∨
      (∃ k, k < bs.length ∧ (∀ j, j < k → putOk (i + j) = true) ∧
        putOk (i + k) = false ∧
        publishBatches putOk ns bs i =
          ((bs.take k).map (fun b => { ns := ns, data := b, ok := true })
            ++ [{ ns := ns, data := bs.getD k [], ok := false }], false)) := by
  intro bs
  induction bs with
  | nil =>
    intro i
    exact Or.inl ⟨fun j hj => absurd hj (by simp), rfl⟩
  | cons b rest ih =>
    intro i
    cases hp : putOk i with
    | false =>
      refine Or.inr ⟨0, by simp, fun j hj => absurd hj (by omega), by simpa using hp, ?_⟩
      simp [publishBatches, hp]
    | true =>
      rcases ih (i + 1) with ⟨hall, heq⟩ | ⟨k, hk, hbefore, hfail, heq⟩
      · refine Or.inl ⟨?_, ?_⟩
        · intro j hj
          cases j with
          | zero => simpa using hp
          | succ j' =>
            have := hall j' (by simpa using Nat.lt_of_succ_lt_succ hj)
            simpa [Nat.add_assoc, Nat.add_comm 1 j'] using this
        · simp [publishBatches, hp, heq]
      · refine Or.inr ⟨k + 1, by simpa using Nat.succ_lt_succ hk, ?_, ?_, ?_⟩
        · intro j hj
          cases j with
          | zero => simpa using hp
          | succ j' =>
            have := hbefore j' (Nat.lt_of_succ_lt_succ hj)
            simpa [Nat.add_assoc, Nat.add_comm 1 j'] using this
        · have : i + (k + 1) = i + 1 + k := by omega
          rw [this]; exact hfail
        · simp [publishBatches, hp, heq, List.take_succ_cons, List.getD_cons_succ]

theorem mem_dropLast_mem {c : PutCall} {l : List PutCall}
    (h : c ∈ l.dropLast) : c ∈ l :=
  List.dropLast_subset l h

theorem map_data_mk (ns : String) (l : List (List MetricPoint)) :
    (l.map (fun b => ({ ns := ns, data := b, ok := true } : PutCall))).map
      PutCall.data = l := by
  induction l with
  | nil => rfl
  | cons b rest ih => simp [ih]

/-- The put-call trace and the boolean result of the publish loop: the
result is `false` exactly when some recorded call failed, `true` exactly
when every recorded call succeeded; every call before the last succeeded
(calls already submitted are never withdrawn); the submitted batches are
exactly the first `length` batches in order; and on success every batch was
submitted. -/
theorem publishBatches_trace_spec (putOk : Nat → Bool) (ns : String)
    (bs : List (List MetricPoint)) :
    ((publishBatches putOk ns bs 0).2 = false ↔
      ∃ c ∈ (publishBatches putOk ns bs 0).1, c.ok = false) ∧
    ((publishBatches putOk ns bs 0).2 = true ↔
      ∀ c ∈ (publishBatches putOk ns bs 0).1, c.ok = true) ∧
    (∀ c ∈ (publishBatches putOk ns bs 0).1.dropLast, c.ok = true) ∧
    ((publishBatches putOk ns bs 0).1.map PutCall.data =
      bs.take (publishBatches putOk ns bs 0).1.length) ∧
    ((publishBatches putOk ns bs 0).2 = true →
      (publishBatches putOk ns bs 0).1.length = bs.length) := by
  rcases publishBatches_closed putOk ns bs 0 with ⟨hall, heq⟩ |
    ⟨k, hk, hbef, hfail, heq⟩
  · rw [heq]
    refine ⟨?_, ?_, ?_, ?_, ?_⟩
    · simp [List.mem_map]
    · simp [List.mem_map]
    · intro c hc
      rcases List.mem_map.mp (mem_dropLast_mem hc) with ⟨b, _, hbc⟩
      subst hbc; rfl
    · rw [map_data_mk, List.length_map, List.take_length]
    · intro _; simp
  · rw [List.getD_eq_getElem bs [] hk] at heq
    rw [heq]
    refine ⟨?_, ?_, ?_, ?_, ?_⟩
    · constructor
      · intro _
        exact ⟨{ ns := ns, data := bs[k], ok := false }, by simp, rfl⟩
      · intro _; rfl
    · constructor
      · intro h; simp at h
      · intro h
        have hx := h { ns := ns, data := bs[k], ok := false } (by simp)
        simp at hx
    · intro c hc
      rw [List.dropLast_concat] at hc
      rcases List.mem_map.mp hc with ⟨b, _, hbc⟩
      subst hbc; rfl
    · have hlen : (((bs.take k).map
            (fun b => ({ ns := ns, data := b, ok := true } : PutCall)))
          ++ [({ ns := ns, data := bs[k], ok := false } : PutCall)]).length = k + 1 := by
        simp [List.length_take, Nat.min_eq_left (Nat.le_of_lt hk)]
      have h2 : bs.take (k + 1) = bs.take k ++ [bs[k]] := by
        rw [List.take_succ, List.getElem?_eq_getElem hk]
        rfl
      rw [hlen, h2, List.map_append, map_data_mk]
      rfl
    · intro hcon
      simp at hcon

/-! ### Claims -/

/-- C1 (counterexample): with `TABLES=","` the table list is `["", ""]` —
non-empty but consisting only of blank entries — yet the guard
`if not TABLES or TABLES == [""]` is not taken, so the handler returns
status `"ok"`, not `"no-tables"` as the claim states. -/
theorem c1_counterexample :
    (∀ t ∈ TABLES { tablesEnv := some ",", namespaceEnv := none }, strip t = "") ∧
    (lambda_handler { tablesEnv := some ",", namespaceEnv := none }
        benignEnv () ()).2.status = "ok" ∧
    ¬ (lambda_handler { tablesEnv := some ",", namespaceEnv := none }
        benignEnv () ()).2.status = "no-tables" := by
  refine ⟨by decide, rfl, by decide⟩

/-- C1 (amended): for every configuration whose table list contains only
blank entries, the handler makes zero remote-store calls and zero sink
calls, and returns `"no-tables"` exactly when the `TABLES` value splits to
`[""]` (i.e. the variable is unset or empty); otherwise it returns `"ok"`. -/
theorem c1_amended {α β : Type} (cfg : Config) (env : Behavior)
    (event : α) (context : β)
    (h : ∀ t ∈ TABLES cfg, strip t = "") :
    (lambda_handler cfg env event context).1.scanCalls = [] ∧
    (lambda_handler cfg env event context).1.putCalls = [] ∧
    ((lambda_handler cfg env event context).2.status = "no-tables" ∨
      (lambda_handler cfg env event context).2.status = "ok") ∧
    ((lambda_handler cfg env event context).2.status = "no-tables" ↔
      (TABLES cfg = [] ∨ TABLES cfg = [""])) := by
  by_cases hg : TABLES cfg = [] ∨ TABLES cfg = [""]
  · simp [lambda_handler, hg]
  · have hc := collect_allBlank env.scan (TABLES cfg) h
    simp [lambda_handler, hg, publish_counts, hc, batchesOf20, batchesAux, publishBatches]

/-- Witness for the amended C1 at `TABLES=" ,"`, whose split `[" ", ""]` is
all-blank but does not trigger the guard. -/
theorem c1_witness :
    (∀ t ∈ TABLES { tablesEnv := some " ,", namespaceEnv := none }, strip t = "") ∧
    ((lambda_handler { tablesEnv := some " ,", namespaceEnv := none }
        benignEnv (0 : Nat) (0 : Nat)).1.scanCalls = [] ∧
     (lambda_handler { tablesEnv := some " ,", namespaceEnv := none }
        benignEnv (0 : Nat) (0 : Nat)).1.putCalls = [] ∧
     ((lambda_handler { tablesEnv := some " ,", namespaceEnv := none }
        benignEnv (0 : Nat) (0 : Nat)).2.status = "no-tables" ∨
      (lambda_handler { tablesEnv := some " ,", namespaceEnv := none }
        benignEnv (0 : Nat) (0 : Nat)).2.status = "ok") ∧
     ((lambda_handler { tablesEnv := some " ,", namespaceEnv := none }
        benignEnv (0 : Nat) (0 : Nat)).2.status = "no-tables" ↔
      (TABLES { tablesEnv := some " ,", namespaceEnv := none } = [] ∨
       TABLES { tablesEnv := some " ,", namespaceEnv := none } = [""]))) :=
  ⟨by decide,
   c1_amended { tablesEnv := some " ,", namespaceEnv := none } benignEnv 0 0 (by decide)⟩

/-- C8: whatever the configuration, the behaviour of the two remote
services, and the (unused) event/context arguments, the handler is a total
function whose result is `{"status": s}` with `s` one of `"ok"`,
`"error"`, `"no-tables"`. -/
theorem c8_status_total {α β : Type} (cfg : Config) (env : Behavior)
    (event : α) (context : β) :
    (lambda_handler cfg env event context).2.status = "ok" ∨
    (lambda_handler cfg env event context).2.status = "error" ∨
    (lambda_handler cfg env event context).2.status = "no-tables" := by
  by_cases hg : TABLES cfg = [] ∨ TABLES cfg = [""]
  · right; right; simp [lambda_handler, hg]
  · cases hp : (publish_counts cfg env).2 with
    | false => right; left; simp [lambda_handler, hg, hp]
    | true => left; simp [lambda_handler, hg, hp]

/-- C9: when the guard is passed but no metric datum is accumulated (every
entry is blank or every non-blank table's count fails), zero sink calls are
made and the run returns `"ok"` — total collection failure is reported the
same as total success. -/
theorem c9_total_failure_ok (cfg : Config) (env : Behavior)
    (hguard : ¬(TABLES cfg = [] ∨ TABLES cfg = [""]))
    (h : ∀ t ∈ TABLES cfg, strip t = "" ∨
      exceptOk (scan_count (env.scan (strip t)) (strip t)).2 = false) :
    (lambda_handler cfg env () ()).1.putCalls = [] ∧
    (lambda_handler cfg env () ()).2.status = "ok" := by
  have hc := collect_noPoints env.scan (TABLES cfg) h
  simp [lambda_handler, hguard, publish_counts, hc, batchesOf20, batchesAux, publishBatches]

/-- Witness for C9: one configured table whose scans all fail. -/
theorem c9_witness :
    ¬(TABLES { tablesEnv := some "x", namespaceEnv := none } = [] ∨
      TABLES { tablesEnv := some "x", namespaceEnv := none } = [""]) ∧
    (∀ t ∈ TABLES { tablesEnv := some "x", namespaceEnv := none },
      strip t = "" ∨
        exceptOk (scan_count (failingEnv.scan (strip t)) (strip t)).2 = false) ∧
    ((lambda_handler { tablesEnv := some "x", namespaceEnv := none }
        failingEnv () ()).1.putCalls = [] ∧
     (lambda_handler { tablesEnv := some "x", namespaceEnv := none }
        failingEnv () ()).2.status = "ok") :=
  ⟨by decide, by decide,
   c9_total_failure_ok { tablesEnv := some "x", namespaceEnv := none }
     failingEnv (by decide) (by decide)⟩

/-- C10: the handler's entire observable outcome — the trace of remote calls
and the returned status — is independent of the event and context
arguments. -/
theorem c10_event_independent {α β γ δ : Type} (cfg : Config) (env : Behavior)
    (event1 : α) (context1 : β) (event2 : γ) (context2 : δ) :
    lambda_handler cfg env event1 context1 = lambda_handler cfg env event2 context2 :=
  rfl

/-- C4: when both the paginated and fallback scans of one configured entry
fail, that entry produces no metric datum, and the accumulated data are
exactly those of the same run with the failing entry absent — the entries
after the failing one are processed unchanged. -/
theorem c4_failure_isolation (scan : String → ScanBehavior)
    (pre post : List String) (t : String) (e : Err)
    (ht : ¬ strip t = "")
    (hp : (scan (strip t)).paginateFails = true)
    (hf : (scan (strip t)).fallback = Except.error e) :
    (collect scan (pre ++ t :: post)).2 = (collect scan (pre ++ post)).2 ∧
    (collect scan (pre ++ t :: post)).2 =
      (collect scan pre).2 ++ (collect scan post).2 := by
  have herr : (scan_count (scan (strip t)) (strip t)).2 = Except.error e := by
    simp [scan_count, hp, hf]
  have h1 : (collect scan (t :: post)).2 = (collect scan post).2 := by
    simp [collect, ht, herr]
  refine ⟨?_, ?_⟩ <;> simp [collect_append, h1]

/-- Witness for C4: tables `a, x, b` where only `x` fails. -/
theorem c4_witness :
    (¬ strip "x" = "") ∧
    (mixedEnv.scan (strip "x")).paginateFails = true ∧
    (mixedEnv.scan (strip "x")).fallback = Except.error 7 ∧
    ((collect mixedEnv.scan (["a"] ++ "x" :: ["b"])).2 =
        (collect mixedEnv.scan (["a"] ++ ["b"])).2 ∧
     (collect mixedEnv.scan (["a"] ++ "x" :: ["b"])).2 =
        (collect mixedEnv.scan ["a"]).2 ++ (collect mixedEnv.scan ["b"]).2) :=
  ⟨by decide, by decide, rfl,
   c4_failure_isolation mixedEnv.scan ["a"] ["b"] "x" 7 (by decide) (by decide) rfl⟩

/-- C5: when a table's pagination fails but its single fallback scan
succeeds, `scan_count` returns exactly the fallback's count — whatever
partial sum the pages had accumulated is discarded (the `pages` field is
unconstrained here) — and the table contributes a metric datum with that
fallback value. -/
theorem c5_fallback_value (scan : String → ScanBehavior)
    (pre post : List String) (t : String) (c : Option Nat)
    (ht : ¬ strip t = "")
    (hp : (scan (strip t)).paginateFails = true)
    (hf : (scan (strip t)).fallback = Except.ok c) :
    (scan_count (scan (strip t)) (strip t)).2 = Except.ok (c.getD 0) ∧
    (collect scan (pre ++ t :: post)).2 =
      (collect scan pre).2 ++
        mkPoint (strip t) (c.getD 0) :: (collect scan post).2 := by
  have hok : (scan_count (scan (strip t)) (strip t)).2 = Except.ok (c.getD 0) := by
    simp [scan_count, hp, hf]
  have h1 : (collect scan (t :: post)).2 =
      mkPoint (strip t) (c.getD 0) :: (collect scan post).2 := by
    simp [collect, ht, hok]
  exact ⟨hok, by simp [collect_append, h1]⟩

/-- Witness for C5: table `x` delivers a page of count 9, then pagination
fails and the fallback returns 5; the datum carries 5, not 9 or 14. -/
theorem c5_witness :
    (¬ strip "x" = "") ∧
    (fallbackEnv.scan (strip "x")).paginateFails = true ∧
    (fallbackEnv.scan (strip "x")).fallback = Except.ok (some 5) ∧
    ((scan_count (fallbackEnv.scan (strip "x")) (strip "x")).2 =
        Except.ok ((some 5 : Option Nat).getD 0) ∧
     (collect fallbackEnv.scan (["a"] ++ "x" :: ["b"])).2 =
        (collect fallbackEnv.scan ["a"]).2 ++
          mkPoint (strip "x") ((some 5 : Option Nat).getD 0) ::
            (collect fallbackEnv.scan ["b"]).2) :=
  ⟨by decide, by decide, rfl,
   c5_fallback_value fallbackEnv.scan ["a"] ["b"] "x" (some 5)
     (by decide) (by decide) rfl⟩

/-- C6: when a table's pagination succeeds, `scan_count` returns the sum of
the per-page counts (a missing `Count` field contributing 0), and the
resulting metric datum has name `ItemCount`, a single dimension
`TableName = ` the stripped table identifier, that sum as value, and unit
`Count`. -/
theorem c6_paginated_sum (scan : String → ScanBehavior)
    (pre post : List String) (t : String)
    (ht : ¬ strip t = "")
    (hp : (scan (strip t)).paginateFails = false) :
    (scan_count (scan (strip t)) (strip t)).2 =
      Except.ok (((scan (strip t)).pages.map (fun p => p.getD 0)).sum) ∧
    (collect scan (pre ++ t :: post)).2 =
      (collect scan pre).2 ++
        mkPoint (strip t) (((scan (strip t)).pages.map (fun p => p.getD 0)).sum) ::
          (collect scan post).2 ∧
    mkPoint (strip t) (((scan (strip t)).pages.map (fun p => p.getD 0)).sum) =
      { metricName := "ItemCount"
      , dimensions := [{ name := "TableName", value := strip t }]
      , value := ((scan (strip t)).pages.map (fun p => p.getD 0)).sum
      , unit := "Count" } := by
  have hok : (scan_count (scan (strip t)) (strip t)).2 =
      Except.ok (((scan (strip t)).pages.map (fun p => p.getD 0)).sum) := by
    simp [scan_count, hp, foldl_count_eq_sum]
  have h1 : (collect scan (t :: post)).2 =
      mkPoint (strip t) (((scan (strip t)).pages.map (fun p => p.getD 0)).sum) ::
        (collect scan post).2 := by
    simp [collect, ht, hok]
  exact ⟨hok, by simp [collect_append, h1], rfl⟩

/-- Witness for C6 at table `Users` under the benign environment (one page
of count 1). -/
theorem c6_witness :
    (¬ strip "Users" = "") ∧
    (benignEnv.scan (strip "Users")).paginateFails = false ∧
    ((scan_count (benignEnv.scan (strip "Users")) (strip "Users")).2 =
        Except.ok (((benignEnv.scan (strip "Users")).pages.map (fun p => p.getD 0)).sum) ∧
     (collect benignEnv.scan ([] ++ "Users" :: [])).2 =
        (collect benignEnv.scan []).2 ++
          mkPoint (strip "Users")
              (((benignEnv.scan (strip "Users")).pages.map (fun p => p.getD 0)).sum) ::
            (collect benignEnv.scan []).2 ∧
     mkPoint (strip "Users")
        (((benignEnv.scan (strip "Users")).pages.map (fun p => p.getD 0)).sum) =
      { metricName := "ItemCount"
      , dimensions := [{ name := "TableName", value := strip "Users" }]
      , value := ((benignEnv.scan (strip "Users")).pages.map (fun p => p.getD 0)).sum
      , unit := "Count" }) :=
  ⟨by decide, by decide,
   c6_paginated_sum benignEnv.scan [] [] "Users" (by decide) (by decide)⟩

/-- C7 (counterexample): `scan_count` does not wrap the failure in an error
carrying the table identifier — it re-raises the fallback's exception
unchanged, so two distinct tables failing with the same underlying cause
signal the very same error, which therefore cannot carry the table
identifier. -/
theorem c7_counterexample :
    (scan_count { pages := [], paginateFails := true, fallback := Except.error 7 }
        "TableA").2 =
      (scan_count { pages := [], paginateFails := true, fallback := Except.error 7 }
        "TableB").2 ∧
    ("TableA" : String) ≠ "TableB" :=
  ⟨rfl, by decide⟩

/-- C7 (amended): when both scans fail, `scan_count` signals exactly the
fallback scan's underlying exception, unchanged; the error carries the
underlying cause but is independent of the table identifier (which is
attached only at the caller's logging site). -/
theorem c7_amended (b : ScanBehavior) (e : Err) (tn1 tn2 : String)
    (hp : b.paginateFails = true) (hf : b.fallback = Except.error e) :
    (scan_count b tn1).2 = Except.error e ∧
    (scan_count b tn1).2 = (scan_count b tn2).2 := by
  refine ⟨?_, ?_⟩ <;> simp [scan_count, hp, hf]

/-- Witness for the amended C7. -/
theorem c7_witness :
    ({ pages := [], paginateFails := true, fallback := Except.error 7 }
        : ScanBehavior).paginateFails = true ∧
    ({ pages := [], paginateFails := true, fallback := Except.error 7 }
        : ScanBehavior).fallback = Except.error 7 ∧
    ((scan_count { pages := [], paginateFails := true, fallback := Except.error 7 }
        "Users").2 = Except.error 7 ∧
     (scan_count { pages := [], paginateFails := true, fallback := Except.error 7 }
        "Users").2 =
       (scan_count { pages := [], paginateFails := true, fallback := Except.error 7 }
        "Orders").2) :=
  ⟨rfl, rfl,
   c7_amended { pages := [], paginateFails := true, fallback := Except.error 7 }
     7 "Users" "Orders" rfl rfl⟩

/-- C2 (counterexample): 21 tables, all counted successfully, but the sink
rejects the first batch; the loop aborts after that single call, so one
sink call is made while ceil(21 / 20) = 2 — the claimed call count is
wrong when a batch submission fails. -/
theorem c2_counterexample :
    ¬ ((lambda_handler cfg21 badSinkEnv () ()).1.putCalls.length =
        (successfulCount badSinkEnv.scan (TABLES cfg21) + 19) / 20) := by
  decide

/-- C2 (amended): provided the metrics sink accepts every batch, the number
of sink calls equals ceil(successful_table_count / 20); the batches
submitted are consecutive groups of at most 20 data each, and their
concatenation in call order is exactly the accumulated data sequence
(order preserved within and across batches). -/
theorem c2_amended (cfg : Config) (env : Behavior)
    (hok : ∀ i, env.putOk i = true) :
    (lambda_handler cfg env () ()).1.putCalls.length =
      (successfulCount env.scan (TABLES cfg) + 19) / 20 ∧
    ((lambda_handler cfg env () ()).1.putCalls.map PutCall.data).flatten =
      (collect env.scan (TABLES cfg)).2 ∧
    ∀ c ∈ (lambda_handler cfg env () ()).1.putCalls, c.data.length ≤ 20 := by
  by_cases hg : TABLES cfg = [] ∨ TABLES cfg = [""]
  · have hblank : ∀ t ∈ TABLES cfg, strip t = "" := by
      rcases hg with hg | hg <;> rw [hg]
      · intro t ht; simp at ht
      · intro t ht
        simp only [List.mem_singleton] at ht
        subst ht
        decide
    have hc := collect_allBlank env.scan (TABLES cfg) hblank
    have hsc : successfulCount env.scan (TABLES cfg) = 0 := by
      have hl := collect_length_eq env.scan (TABLES cfg)
      rw [hc] at hl
      simpa using hl.symm
    refine ⟨?_, ?_, ?_⟩
    · simp [lambda_handler, hg, hsc]
    · simp [lambda_handler, hg, hc]
    · intro c hc2
      simp [lambda_handler, hg] at hc2
  · have hpub := publishBatches_allOk env.putOk (NAMESPACE cfg) hok
      (batchesOf20 (collect env.scan (TABLES cfg)).2) 0
    have hlam : (lambda_handler cfg env () ()).1.putCalls =
        (batchesOf20 (collect env.scan (TABLES cfg)).2).map
          (fun b => { ns := NAMESPACE cfg, data := b, ok := true }) := by
      simp [lambda_handler, hg, publish_counts, hpub]
    rw [hlam]
    refine ⟨?_, ?_, ?_⟩
    · rw [List.length_map, batchesOf20_length, collect_length_eq]
    · rw [map_data_mk, batchesOf20_flatten]
    · intro c hc2
      rcases List.mem_map.mp hc2 with ⟨b, hb, hbc⟩
      subst hbc
      exact batchesOf20_le20 _ b hb

/-- Witness for the amended C2: two tables under the benign environment
give one sink call carrying both data. -/
theorem c2_witness :
    (∀ i, benignEnv.putOk i = true) ∧
    ((lambda_handler { tablesEnv := some "a,b", namespaceEnv := none }
        benignEnv () ()).1.putCalls.length =
      (successfulCount benignEnv.scan
          (TABLES { tablesEnv := some "a,b", namespaceEnv := none }) + 19) / 20 ∧
     ((lambda_handler { tablesEnv := some "a,b", namespaceEnv := none }
        benignEnv () ()).1.putCalls.map PutCall.data).flatten =
      (collect benignEnv.scan
          (TABLES { tablesEnv := some "a,b", namespaceEnv := none })).2 ∧
     ∀ c ∈ (lambda_handler { tablesEnv := some "a,b", namespaceEnv := none }
        benignEnv () ()).1.putCalls, c.data.length ≤ 20) :=
  ⟨fun _ => rfl,
   c2_amended { tablesEnv := some "a,b", namespaceEnv := none } benignEnv
     (fun _ => rfl)⟩

/-- C3: once the guard is passed, the run returns `"error"` exactly when
some sink call failed (even if earlier batches succeeded) and `"ok"`
exactly when every recorded sink call succeeded; every call before the
last one succeeded and stays in the trace (no rollback: the submitted
batches are exactly the first `length` batches, in order), and on `"ok"`
every batch was submitted. -/
theorem c3_publish_failure (cfg : Config) (env : Behavior)
    (hguard : ¬(TABLES cfg = [] ∨ TABLES cfg = [""])) :
    ((lambda_handler cfg env () ()).2.status = "error" ↔
      ∃ c ∈ (lambda_handler cfg env () ()).1.putCalls, c.ok = false) ∧
    ((lambda_handler cfg env () ()).2.status = "ok" ↔
      ∀ c ∈ (lambda_handler cfg env () ()).1.putCalls, c.ok = true) ∧
    (∀ c ∈ (lambda_handler cfg env () ()).1.putCalls.dropLast, c.ok = true) ∧
    ((lambda_handler cfg env () ()).1.putCalls.map PutCall.data =
      (batchesOf20 (collect env.scan (TABLES cfg)).2).take
        (lambda_handler cfg env () ()).1.putCalls.length) ∧
    ((lambda_handler cfg env () ()).2.status = "ok" →
      (lambda_handler cfg env () ()).1.putCalls.length =
        (batchesOf20 (collect env.scan (TABLES cfg)).2).length) := by
  have hspec := publishBatches_trace_spec env.putOk (NAMESPACE cfg)
    (batchesOf20 (collect env.scan (TABLES cfg)).2)
  have hput : (lambda_handler cfg env () ()).1.putCalls =
      (publishBatches env.putOk (NAMESPACE cfg)
        (batchesOf20 (collect env.scan (TABLES cfg)).2) 0).1 := by
    simp [lambda_handler, hguard, publish_counts]
  have hstat : (lambda_handler cfg env () ()).2.status =
      (if (publishBatches env.putOk (NAMESPACE cfg)
          (batchesOf20 (collect env.scan (TABLES cfg)).2) 0).2
        then "ok" else "error") := by
    simp [lambda_handler, hguard, publish_counts]
  rw [hput, hstat]
  cases hb : (publishBatches env.putOk (NAMESPACE cfg)
      (batchesOf20 (collect env.scan (TABLES cfg)).2) 0).2 with
  | false =>
    refine ⟨?_, ?_, hspec.2.2.1, hspec.2.2.2.1, ?_⟩
    · constructor
      · intro _; exact hspec.1.mp hb
      · intro _; rfl
    · constructor
      · intro h; simp at h
      · intro h
        exfalso
        rcases hspec.1.mp hb with ⟨c, hc, hco⟩
        rw [h c hc] at hco
        simp at hco
    · intro h
      simp at h
  | true =>
    refine ⟨?_, ?_, hspec.2.2.1, hspec.2.2.2.1, ?_⟩
    · constructor
      · intro h; simp at h
      · intro h
        exfalso
        rcases h with ⟨c, hc, hco⟩
        rw [hspec.2.1.mp hb c hc] at hco
        simp at hco
    · constructor
      · intro _; exact hspec.2.1.mp hb
      · intro _; rfl
    · intro _
      exact hspec.2.2.2.2 hb

/-- Witness for C3: two tables, benign environment — every call succeeded
and the run returned `"ok"`. -/
theorem c3_witness :
    ¬(TABLES { tablesEnv := some "a,b", namespaceEnv := none } = [] ∨
      TABLES { tablesEnv := some "a,b", namespaceEnv := none } = [""]) ∧
    (((lambda_handler { tablesEnv := some "a,b", namespaceEnv := none }
        benignEnv () ()).2.status = "error" ↔
      ∃ c ∈ (lambda_handler { tablesEnv := some "a,b", namespaceEnv := none }
        benignEnv () ()).1.putCalls, c.ok = false) ∧
     ((lambda_handler { tablesEnv := some "a,b", namespaceEnv := none }
        benignEnv () ()).2.status = "ok" ↔
      ∀ c ∈ (lambda_handler { tablesEnv := some "a,b", namespaceEnv := none }
        benignEnv () ()).1.putCalls, c.ok = true) ∧
     (∀ c ∈ (lambda_handler { tablesEnv := some "a,b", namespaceEnv := none }
        benignEnv () ()).1.putCalls.dropLast, c.ok = true) ∧
     ((lambda_handler { tablesEnv := some "a,b", namespaceEnv := none }
        benignEnv () ()).1.putCalls.map PutCall.data =
      (batchesOf20 (collect benignEnv.scan
          (TABLES { tablesEnv := some "a,b", namespaceEnv := none })).2).take
        (lambda_handler { tablesEnv := some "a,b", namespaceEnv := none }
          benignEnv () ()).1.putCalls.length) ∧
     ((lambda_handler { tablesEnv := some "a,b", namespaceEnv := none }
        benignEnv () ()).2.status = "ok" →
      (lambda_handler { tablesEnv := some "a,b", namespaceEnv := none }
        benignEnv () ()).1.putCalls.length =
        (batchesOf20 (collect benignEnv.scan
          (TABLES { tablesEnv := some "a,b", namespaceEnv := none })).2).length)) :=
  ⟨by decide,
   c3_publish_failure { tablesEnv := some "a,b", namespaceEnv := none } benignEnv
     (by decide)⟩

end ExamApp
